import Mathlib

/-!
Verification of a quadrotor simulation (planar and full 3-D dynamics,
feedback controller, trajectory) against its natural-language specification.
The numeric code is embedded over the real numbers; the external ODE solver
(scipy `solve_ivp`) is represented by an explicit integrator parameter.
-/

noncomputable section

open Matrix

/-- Quaternion in xyzw storage order, mirroring the `sym.Rot3` storage used
by the source (`q0 q1 q2 q3` with `q3` the scalar part). -/
structure Quat where
  q0 : ℝ
  q1 : ℝ
  q2 : ℝ
  q3 : ℝ

/-- Modelled from the spec: VehicleState (the source's `QuadrotorState`,
defined in the repository's `quadrotor.dynamics` module, not in src/):
position and velocity in the world frame, orientation body-to-world,
angular velocity in the body frame. -/
structure QuadrotorState where
  position : Fin 3 → ℝ
  velocity : Fin 3 → ℝ
  orientation : Quat
  angular_velocity : Fin 3 → ℝ

/-- Modelled from the spec: RotorCommands (the source's `QuadrotorCommands`
from `quadrotor.controller`, not in src/): 4 rotor angular rates. -/
structure QuadrotorCommands where
  rotor_rates : Fin 4 → ℝ

/-- Modelled from the spec: ReferenceState (the source's `TrajectoryState`
from `quadrotor.trajectory`, not in src/): timestamp, desired position and
desired velocity (velocity defaults to zero when not supplied). -/
structure TrajectoryState where
  time : ℝ
  position : Fin 3 → ℝ
  velocity : Fin 3 → ℝ

/-- Embeds the full-model `Params` dataclass of the 3-D notebook:
physical constants, with the inertia a full 3x3 tensor. -/
structure Params where
  mass : ℝ
  inertia : Matrix (Fin 3) (Fin 3) ℝ
  rotor_diameter : ℝ
  static_thrust_coefficient : ℝ
  static_torque_coefficient : ℝ
  arm_length : ℝ
  g : ℝ
  rho : ℝ

/-- Embeds `Params.rotor_model`:
`rho * static_coefficient * rotor_diameter^4 / (4*pi^2)`. -/
def Params.rotor_model (pr : Params) (static_coefficient : ℝ) : ℝ :=
  pr.rho * static_coefficient * pr.rotor_diameter ^ 4 / (4 * Real.pi ^ 2)

/-- Derived coefficient `k_thrust` of the full-model `Params`. -/
def Params.k_thrust (pr : Params) : ℝ :=
  pr.rotor_model pr.static_thrust_coefficient

/-- Derived coefficient `k_torque` of the full-model `Params`. -/
def Params.k_torque (pr : Params) : ℝ :=
  pr.rotor_model pr.static_torque_coefficient

/-- The module-level global `p = Params()` of the 3-D notebook
(Skydio X2 default values). -/
def p : Params where
  mass := 1.352
  inertia := !![9.8e-3, 0, 0; 0, 10.02e-3, 0; 0, 0, 18.6e-3]
  rotor_diameter := 10 * 0.0254
  static_thrust_coefficient := 0.14553
  static_torque_coefficient := 0.01047
  arm_length := 0.3814 / 2.0
  g := 9.80665
  rho := 1.225

/-- Embeds the `ControllerParams` dataclass: diagonal PD gain matrices and
rotor-rate saturation bounds. -/
structure ControllerParams where
  K_p : Matrix (Fin 3) (Fin 3) ℝ
  K_d : Matrix (Fin 3) (Fin 3) ℝ
  rotor_rate_min : ℝ
  rotor_rate_max : ℝ

/-- The module-level global `controller_p = ControllerParams()`. -/
def controller_p : ControllerParams where
  K_p := Matrix.diagonal ![0, 0, 100]
  K_d := Matrix.diagonal ![0, 0, 20]
  rotor_rate_min := 180
  rotor_rate_max := 600

/-- Embeds `np.cross` for 3-vectors, as used in the 3-D `state_derivative`. -/
def cross3 (a b : Fin 3 → ℝ) : Fin 3 → ℝ :=
  ![a 1 * b 2 - a 2 * b 1, a 2 * b 0 - a 0 * b 2, a 0 * b 1 - a 1 * b 0]

/-- Embeds `dRot3`: quaternion derivative `quat_dot = (G.T @ omega) / 2`
with `G` built from the xyzw components of the current orientation. -/
def dRot3 (R : Quat) (omega : Fin 3 → ℝ) : Quat :=
  let G : Matrix (Fin 3) (Fin 4) ℝ :=
    !![R.q3, R.q2, -R.q1, -R.q0;
       -R.q2, R.q3, R.q0, -R.q1;
       R.q1, -R.q0, R.q3, -R.q2]
  let quat_dot : Fin 4 → ℝ := fun i => (G.transpose *ᵥ omega) i / 2
  ⟨quat_dot 0, quat_dot 1, quat_dot 2, quat_dot 3⟩

/-- Rotation action `R * v` of a `sym.Rot3` quaternion (xyzw) on a vector:
the standard quaternion rotation matrix applied to `v`. -/
def Quat.rotate (q : Quat) (v : Fin 3 → ℝ) : Fin 3 → ℝ :=
  let x := q.q0
  let y := q.q1
  let z := q.q2
  let w := q.q3
  ![(1 - 2 * (y ^ 2 + z ^ 2)) * v 0 + 2 * (x * y - z * w) * v 1 + 2 * (x * z + y * w) * v 2,
    2 * (x * y + z * w) * v 0 + (1 - 2 * (x ^ 2 + z ^ 2)) * v 1 + 2 * (y * z - x * w) * v 2,
    2 * (x * z - y * w) * v 0 + 2 * (y * z + x * w) * v 1 + (1 - 2 * (x ^ 2 + y ^ 2)) * v 2]

/-- Pitch angle extracted by `sym.Rot3.to_yaw_pitch_roll()[1]` (rotation
about the y axis in the ZYX Euler convention), from the xyzw quaternion. -/
def Quat.pitch (q : Quat) : ℝ :=
  Real.arcsin (2 * (q.q1 * q.q3 - q.q0 * q.q2))

/-- An ODE integrator in the role of `sp.integrate.solve_ivp`: given the
(time-invariant) state-derivative function and `dt`, advances the initial
state over `[0, dt]`.  The scipy solver is external library code; any such
solver is a deterministic function of these inputs, which is all the
development relies on. -/
def Integrator : Type :=
  (QuadrotorState → QuadrotorState) → ℝ → QuadrotorState → QuadrotorState

namespace FullQuadrotorDynamics

/-- Embeds `FullQuadrotorDynamics.rotor_thrust_model`:
`p.k_thrust * np.square(rotor_rates)`, elementwise over the 4 rotors. -/
def rotor_thrust_model (pr : Params) (rotor_rates : Fin 4 → ℝ) : Fin 4 → ℝ :=
  fun i => pr.k_thrust * rotor_rates i ^ 2

/-- The mixing matrix literal built inside `FullQuadrotorDynamics.step`,
with `L = p.arm_length` and `k = p.k_thrust / p.k_torque`. -/
def mixing_matrix (pr : Params) : Matrix (Fin 4) (Fin 4) ℝ :=
  let L := pr.arm_length
  let k := pr.k_thrust / pr.k_torque
  !![1, 1, 1, 1;
     0, L, 0, -1 * L;
     -1 * L, 0, L, 0;
     k, -1 * k, k, -1 * k]

/-- The generalized actuation vector `u = mixing_matrix @ forces` computed
in `FullQuadrotorDynamics.step` from the commanded rotor rates. -/
def u_of_rates (pr : Params) (rotor_rates : Fin 4 → ℝ) : Fin 4 → ℝ :=
  mixing_matrix pr *ᵥ rotor_thrust_model pr rotor_rates

/-- Embeds `FullQuadrotorDynamics.state_derivative`: translational
acceleration from gravity plus rotated thrust, angular acceleration from
Euler's rigid-body equation. -/
def state_derivative (pr : Params) (state : QuadrotorState) (u1 : ℝ)
    (u2 : Fin 3 → ℝ) : QuadrotorState :=
  let RAB := state.orientation
  let accel : Fin 3 → ℝ :=
    fun i => (![0, 0, pr.mass * pr.g * (-1)] i + RAB.rotate ![0, 0, u1] i) / pr.mass
  let M := u2
  let angular_accel : Fin 3 → ℝ :=
    pr.inertia⁻¹ *ᵥ (M - cross3 state.angular_velocity (pr.inertia *ᵥ state.angular_velocity))
  { position := state.velocity
    velocity := accel
    orientation := dRot3 state.orientation state.angular_velocity
    angular_velocity := angular_accel }

/-- Embeds `FullQuadrotorDynamics.step`: forward mixing of the rotor rates
into `(u1, u2)`, then integration of the state derivative over `[0, dt]`
with the commands held constant. -/
def step (pr : Params) (integ : Integrator) (dt : ℝ) (state : QuadrotorState)
    (t : ℝ) (input : QuadrotorCommands) : QuadrotorState :=
  let u := u_of_rates pr input.rotor_rates
  let u1 := u 0
  let u2 : Fin 3 → ℝ := fun i => u i.succ
  integ (fun s => state_derivative pr s u1 u2) dt state

end FullQuadrotorDynamics

namespace Controller

/-- The mixing matrix literal built inside `Controller.rotor_rates_from_u`;
textually the same matrix as the one in `FullQuadrotorDynamics.step`. -/
def mixing_matrix (pr : Params) : Matrix (Fin 4) (Fin 4) ℝ :=
  let L := pr.arm_length
  let k := pr.k_thrust / pr.k_torque
  !![1, 1, 1, 1;
     0, L, 0, -1 * L;
     -1 * L, 0, L, 0;
     k, -1 * k, k, -1 * k]

/-- Step 1 of `Controller.rotor_rates_from_u`:
`force_array = np.linalg.inv(mixing_matrix) @ u`. -/
def force_array (pr : Params) (u : Fin 4 → ℝ) : Fin 4 → ℝ :=
  (mixing_matrix pr)⁻¹ *ᵥ u

/-- The zero-floor loop of `Controller.rotor_rates_from_u`: each entry of
`force_array` below zero is set to zero. -/
def clamped_forces (pr : Params) (u : Fin 4 → ℝ) : Fin 4 → ℝ :=
  fun i => if force_array pr u i < 0 then 0 else force_array pr u i

/-- Step 2 of `Controller.rotor_rates_from_u`:
`math_omegas = np.sqrt(force_array / p.k_thrust)` after the zero-floor. -/
def math_omegas (pr : Params) (u : Fin 4 → ℝ) : Fin 4 → ℝ :=
  fun i => Real.sqrt (clamped_forces pr u i / pr.k_thrust)

/-- Embeds `Controller.rotor_rates_from_u`: inverse mixing, zero-floor on
forces, square-root rate recovery, then the min/max saturation loop. -/
def rotor_rates_from_u (pr : Params) (cp : ControllerParams) (u : Fin 4 → ℝ) :
    Fin 4 → ℝ :=
  fun i =>
    let w := math_omegas pr u i
    let w1 := if w < cp.rotor_rate_min then cp.rotor_rate_min else w
    if w1 > cp.rotor_rate_max then cp.rotor_rate_max else w1

/-- The PD law inside `Controller.step`:
`K_d @ (desired_velocity - actual_velocity) + K_p @ (desired_position - actual_position)`. -/
def commanded_acceleration (cp : ControllerParams) (trajectory : TrajectoryState)
    (state : QuadrotorState) : Fin 3 → ℝ :=
  cp.K_d *ᵥ (trajectory.velocity - state.velocity) +
    cp.K_p *ᵥ (trajectory.position - state.position)

/-- The thrust command inside `Controller.step`:
`u_1 = p.mass * (p.g + commanded_acceleration[2])`. -/
def u_1 (pr : Params) (cp : ControllerParams) (trajectory : TrajectoryState)
    (state : QuadrotorState) : ℝ :=
  pr.mass * (pr.g + commanded_acceleration cp trajectory state 2)

/-- Embeds `Controller.step`: PD commanded acceleration, linearized thrust
command, zero torque command, then inverse mixing into rotor rates. -/
def step (pr : Params) (cp : ControllerParams) (t : ℝ)
    (trajectory : TrajectoryState) (state : QuadrotorState) : QuadrotorCommands :=
  let u : Fin 4 → ℝ := ![u_1 pr cp trajectory state, 0, 0, 0]
  ⟨rotor_rates_from_u pr cp u⟩

end Controller

/-- Embeds `JumpTrajectory.eval`: altitude 0 before `t = 1.0`, then 1.0;
desired velocity is left at its zero default. -/
def JumpTrajectory.eval (t : ℝ) : TrajectoryState :=
  let altitude : ℝ := if t < 1.0 then 0 else 1.0
  { time := t, position := ![0, 0, altitude], velocity := ![0, 0, 0] }

/-- Embeds the planar notebook's `Params` dataclass: same constants but with
a scalar inertia. -/
structure PlanarParams where
  mass : ℝ
  inertia : ℝ
  rotor_diameter : ℝ
  static_thrust_coefficient : ℝ
  static_torque_coefficient : ℝ
  arm_length : ℝ
  g : ℝ
  rho : ℝ

/-- Planar `Params.rotor_model`, same formula as the 3-D one. -/
def PlanarParams.rotor_model (pr : PlanarParams) (static_coefficient : ℝ) : ℝ :=
  pr.rho * static_coefficient * pr.rotor_diameter ^ 4 / (4 * Real.pi ^ 2)

/-- Planar derived coefficient `k_thrust`. -/
def PlanarParams.k_thrust (pr : PlanarParams) : ℝ :=
  pr.rotor_model pr.static_thrust_coefficient

/-- Planar derived coefficient `k_torque`. -/
def PlanarParams.k_torque (pr : PlanarParams) : ℝ :=
  pr.rotor_model pr.static_torque_coefficient

/-- The planar notebook's global `p = Params()`. -/
def planar_p : PlanarParams where
  mass := 1.352
  inertia := 9.8e-2
  rotor_diameter := 10 * 0.0254
  static_thrust_coefficient := 0.14553
  static_torque_coefficient := 0.01047
  arm_length := 0.3814 / 2.0
  g := 9.80665
  rho := 1.225

namespace PlanarQuadrotorDynamics

/-- Embeds `PlanarQuadrotorDynamics.rotor_thrust_model`, applied in `step`
to the slice `rotor_rates[:2]`. -/
def rotor_thrust_model (pr : PlanarParams) (rotor_rates : Fin 2 → ℝ) : Fin 2 → ℝ :=
  fun i => pr.k_thrust * rotor_rates i ^ 2

/-- Embeds the planar `state_derivative`: thrust tilted by the pitch angle
acts in the x/z plane, torque only about the y axis. -/
def state_derivative (pr : PlanarParams) (state : QuadrotorState) (u1 u2 : ℝ) :
    QuadrotorState :=
  let phi := state.orientation.pitch
  let accel : Fin 3 → ℝ :=
    ![u1 * (-1) * Real.sin phi / pr.mass, 0, (-1) * pr.g + u1 * Real.cos phi / pr.mass]
  let angular_accel : Fin 3 → ℝ := ![0, u2 / pr.inertia, 0]
  { position := state.velocity
    velocity := accel
    orientation := dRot3 state.orientation state.angular_velocity
    angular_velocity := angular_accel }

/-- Embeds the planar `step`: only the first two rotor rates are used,
`u1 = F1 + F2`, `u2 = (F1 - F2) * (arm_length / 2)`, then integration. -/
def step (pr : PlanarParams) (integ : Integrator) (dt : ℝ) (state : QuadrotorState)
    (t : ℝ) (input : QuadrotorCommands) : QuadrotorState :=
  let F := rotor_thrust_model pr ![input.rotor_rates 0, input.rotor_rates 1]
  let F1 := F 0
  let F2 := F 1
  let u1 := F1 + F2
  let u2 := (F1 - F2) * (pr.arm_length / 2)
  integ (fun s => state_derivative pr s u1 u2) dt state

end PlanarQuadrotorDynamics

/-- Modelled from the spec: one tick of the simulator loop (the source's
`SimulatorBase.simulate`, outside src/): evaluate the trajectory, run the
controller on (reference, actual), advance the dynamics. -/
def tick (pr : Params) (cp : ControllerParams) (integ : Integrator) (dt t : ℝ)
    (state : QuadrotorState) :
    TrajectoryState × QuadrotorCommands × QuadrotorState :=
  let ref := JumpTrajectory.eval t
  let cmd := Controller.step pr cp t ref state
  let s1 := FullQuadrotorDynamics.step pr integ dt state t cmd
  (ref, cmd, s1)

/-- Modelled from the spec: the simulator history over `n` ticks, appending
one `(time, state, commands, reference)` tuple per tick. -/
def simulate_history (pr : Params) (cp : ControllerParams) (integ : Integrator)
    (dt : ℝ) :
    ℕ → ℝ → QuadrotorState →
      List (ℝ × QuadrotorState × QuadrotorCommands × TrajectoryState)
  | 0, _, _ => []
  | Nat.succ n, t, state =>
    let r := tick pr cp integ dt t state
    (t, r.2.2, r.2.1, r.1) :: simulate_history pr cp integ dt n (t + dt) r.2.2

/-- Parameters with nice derived coefficients (`k_thrust = k_torque = 1`),
used to instantiate hypotheses of the round-trip theorem concretely. -/
def unitParams : Params where
  mass := 1
  inertia := 1
  rotor_diameter := 1
  static_thrust_coefficient := 1
  static_torque_coefficient := 1
  arm_length := 1
  g := 9.80665
  rho := 4 * Real.pi ^ 2

/-- A concrete level rest state, used by witnesses. -/
def restState : QuadrotorState where
  position := ![0, 0, 0]
  velocity := ![0, 0, 0]
  orientation := ⟨0, 0, 0, 1⟩
  angular_velocity := ![0, 0, 0]

/-- A `Params` value with non-positive mass; the dataclass constructor
accepts it unchanged. -/
def invalidParams : Params :=
  { p with mass := -1 }

/-- A `Params` value with zero arm length, whose mixing matrix is singular;
also accepted at construction. -/
def zeroArmParams : Params :=
  { p with arm_length := 0 }

/-- Determinant of the shared mixing matrix: `-8 * L^2 * k`. -/
theorem mixing_matrix_det (pr : Params) :
    (FullQuadrotorDynamics.mixing_matrix pr).det =
      -(8 * pr.arm_length ^ 2 * (pr.k_thrust / pr.k_torque)) := by
  simp [FullQuadrotorDynamics.mixing_matrix, Matrix.det_succ_row_zero,
    Fin.sum_univ_succ, Matrix.det_fin_three, Matrix.submatrix_apply,
    Fin.succAbove, Fin.castSucc, Fin.castAdd, Fin.castLE, Fin.lt_def]
  ring

/-- The thrust coefficient of `unitParams` is exactly 1. -/
theorem unitParams_k_thrust : unitParams.k_thrust = 1 := by
  unfold unitParams Params.k_thrust Params.rotor_model
  have hpi : (4 : ℝ) * Real.pi ^ 2 ≠ 0 := by positivity
  field_simp

/-- The torque coefficient of `unitParams` is exactly 1. -/
theorem unitParams_k_torque : unitParams.k_torque = 1 := by
  unfold unitParams Params.k_torque Params.rotor_model
  have hpi : (4 : ℝ) * Real.pi ^ 2 ≠ 0 := by positivity
  field_simp

/-- The default thrust coefficient `p.k_thrust` is positive. -/
theorem p_k_thrust_pos : 0 < p.k_thrust := by
  simp only [p, Params.k_thrust, Params.rotor_model]
  positivity

/-- The default torque coefficient `p.k_torque` is positive. -/
theorem p_k_torque_pos : 0 < p.k_torque := by
  simp only [p, Params.k_torque, Params.rotor_model]
  positivity

/-- C1: the forward rotor-mixing map of the full dynamics computes
`F_i = k_thrust * rate_i^2` and
`u = [F1+F2+F3+F4, L*(F2-F4), L*(F3-F1), k*(F1-F2+F3-F4)]`
with `L` the arm length and `k = k_thrust/k_torque`. -/
theorem forward_mixing_correct (pr : Params) (rates : Fin 4 → ℝ) :
    (∀ i, FullQuadrotorDynamics.rotor_thrust_model pr rates i = pr.k_thrust * rates i ^ 2) ∧
    (let F := FullQuadrotorDynamics.rotor_thrust_model pr rates
     let u := FullQuadrotorDynamics.u_of_rates pr rates
     u 0 = F 0 + F 1 + F 2 + F 3 ∧
     u 1 = pr.arm_length * (F 1 - F 3) ∧
     u 2 = pr.arm_length * (F 2 - F 0) ∧
     u 3 = pr.k_thrust / pr.k_torque * (F 0 - F 1 + F 2 - F 3)) := by
  refine ⟨fun i => rfl, ?_, ?_, ?_, ?_⟩ <;>
    simp [FullQuadrotorDynamics.u_of_rates, FullQuadrotorDynamics.mixing_matrix,
      Matrix.mulVec, Matrix.dotProduct, Fin.sum_univ_four] <;>
    ring

/-- C2: applying the forward mixing map of the dynamics and then the
controller's inverse map recovers the original rotor rates exactly, whenever
the rates are non-negative, the per-rotor forces are positive, and the rates
lie within the saturation bounds; moreover the Controller and the Dynamics
use the same mixing matrix. -/
theorem mixing_roundtrip (pr : Params) (cp : ControllerParams) (rates : Fin 4 → ℝ)
    (hL : pr.arm_length ≠ 0) (hkt : 0 < pr.k_thrust) (hkq : pr.k_torque ≠ 0)
    (hnn : ∀ i, 0 ≤ rates i)
    (hpos : ∀ i, 0 < FullQuadrotorDynamics.rotor_thrust_model pr rates i)
    (hmin : ∀ i, cp.rotor_rate_min ≤ rates i)
    (hmax : ∀ i, rates i ≤ cp.rotor_rate_max) :
    Controller.rotor_rates_from_u pr cp (FullQuadrotorDynamics.u_of_rates pr rates) = rates ∧
    Controller.mixing_matrix pr = FullQuadrotorDynamics.mixing_matrix pr := by
  have hM : Controller.mixing_matrix pr = FullQuadrotorDynamics.mixing_matrix pr := rfl
  have hdet : IsUnit (FullQuadrotorDynamics.mixing_matrix pr).det := by
    rw [mixing_matrix_det]
    exact isUnit_iff_ne_zero.mpr (by
      have hk : pr.k_thrust / pr.k_torque ≠ 0 := div_ne_zero (ne_of_gt hkt) hkq
      intro h
      apply hk
      have hL2 : pr.arm_length ^ 2 ≠ 0 := pow_ne_zero 2 hL
      have h8 : (8 : ℝ) ≠ 0 := by norm_num
      have := neg_eq_zero.mp h
      rcases mul_eq_zero.mp this with h1 | h1
      · rcases mul_eq_zero.mp h1 with h2 | h2
        · exact absurd h2 h8
        · exact absurd h2 hL2
      · exact h1)
  have hforce : Controller.force_array pr (FullQuadrotorDynamics.u_of_rates pr rates) =
      FullQuadrotorDynamics.rotor_thrust_model pr rates := by
    unfold Controller.force_array FullQuadrotorDynamics.u_of_rates
    rw [hM, Matrix.mulVec_mulVec, Matrix.nonsing_inv_mul _ hdet, Matrix.one_mulVec]
  have hclamp : Controller.clamped_forces pr (FullQuadrotorDynamics.u_of_rates pr rates) =
      FullQuadrotorDynamics.rotor_thrust_model pr rates := by
    funext i
    unfold Controller.clamped_forces
    rw [hforce, if_neg (not_lt.mpr (hpos i).le)]
  have homega : ∀ i, Controller.math_omegas pr (FullQuadrotorDynamics.u_of_rates pr rates) i =
      rates i := by
    intro i
    unfold Controller.math_omegas
    rw [hclamp]
    unfold FullQuadrotorDynamics.rotor_thrust_model
    rw [mul_div_cancel_left₀ _ (ne_of_gt hkt)]
    exact Real.sqrt_sq (hnn i)
  refine ⟨?_, hM⟩
  funext i
  simp only [Controller.rotor_rates_from_u, homega i]
  rw [if_neg (not_lt.mpr (hmin i)), if_neg (not_lt.mpr (hmax i))]

/-- C2 witness: the round trip at `rates = (300,300,300,300)` with the
default saturation bounds `[180, 600]`. -/
theorem mixing_roundtrip_witness :
    Controller.rotor_rates_from_u unitParams controller_p
      (FullQuadrotorDynamics.u_of_rates unitParams ![300, 300, 300, 300]) =
      ![300, 300, 300, 300] := by
  refine (mixing_roundtrip unitParams controller_p ![300, 300, 300, 300]
    ?_ ?_ ?_ ?_ ?_ ?_ ?_).1
  · show (1 : ℝ) ≠ 0
    norm_num
  · rw [unitParams_k_thrust]
    norm_num
  · rw [unitParams_k_torque]
    norm_num
  · intro i
    fin_cases i <;> norm_num
  · intro i
    simp only [FullQuadrotorDynamics.rotor_thrust_model, unitParams_k_thrust]
    fin_cases i <;> norm_num
  · intro i
    show (180 : ℝ) ≤ _
    fin_cases i <;> norm_num
  · intro i
    show _ ≤ (600 : ℝ)
    fin_cases i <;> norm_num

/-- C3: the full-dynamics state derivative realizes the spec's equations of
motion: `d(position)/dt = velocity`,
`d(velocity)/dt = ([0,0,-mass*g] + R*[0,0,u1]) / mass`, and
`d(angular_velocity)/dt = I⁻¹ * (u2 - omega x (I*omega))`. -/
theorem state_derivative_equations_of_motion (pr : Params) (state : QuadrotorState)
    (u1 : ℝ) (u2 : Fin 3 → ℝ) :
    (FullQuadrotorDynamics.state_derivative pr state u1 u2).position = state.velocity ∧
    (FullQuadrotorDynamics.state_derivative pr state u1 u2).velocity =
      (fun i => (![0, 0, -(pr.mass * pr.g)] i +
        state.orientation.rotate ![0, 0, u1] i) / pr.mass) ∧
    (FullQuadrotorDynamics.state_derivative pr state u1 u2).angular_velocity =
      pr.inertia⁻¹ *ᵥ (u2 - cross3 state.angular_velocity
        (pr.inertia *ᵥ state.angular_velocity)) := by
  refine ⟨rfl, ?_, rfl⟩
  funext i
  show (![0, 0, pr.mass * pr.g * (-1)] i + state.orientation.rotate ![0, 0, u1] i) / pr.mass = _
  fin_cases i <;> norm_num

/-- C4: for every input `u`, the controller's rate recovery floors each
inverse-mixed force at zero before the square root (so the argument of the
square root is never negative), the pre-saturation rate is
`sqrt(max(force_i,0)/k_thrust)`, and the returned rates lie in
`[rotor_rate_min, rotor_rate_max]`. -/
theorem rotor_rate_recovery_safe (pr : Params) (cp : ControllerParams)
    (u : Fin 4 → ℝ) (hb : cp.rotor_rate_min ≤ cp.rotor_rate_max) :
    (∀ i, 0 ≤ Controller.clamped_forces pr u i) ∧
    (∀ i, Controller.math_omegas pr u i =
      Real.sqrt (max (Controller.force_array pr u i) 0 / pr.k_thrust)) ∧
    (∀ i, cp.rotor_rate_min ≤ Controller.rotor_rates_from_u pr cp u i ∧
      Controller.rotor_rates_from_u pr cp u i ≤ cp.rotor_rate_max) := by
  refine ⟨fun i => ?_, fun i => ?_, fun i => ?_⟩
  · unfold Controller.clamped_forces
    split_ifs with h
    · exact le_refl 0
    · exact not_lt.mp h
  · unfold Controller.math_omegas Controller.clamped_forces
    rcases lt_or_le (Controller.force_array pr u i) 0 with h | h
    · rw [if_pos h, max_eq_right h.le]
    · rw [if_neg (not_lt.mpr h), max_eq_left h]
  · simp only [Controller.rotor_rates_from_u]
    constructor <;> split_ifs <;> simp_all

/-- C4 witness: at the concrete default parameters and `u = 0`. -/
theorem rotor_rate_recovery_safe_witness :
    controller_p.rotor_rate_min ≤ controller_p.rotor_rate_max ∧
    (∀ i, controller_p.rotor_rate_min ≤
        Controller.rotor_rates_from_u p controller_p ![0, 0, 0, 0] i ∧
      Controller.rotor_rates_from_u p controller_p ![0, 0, 0, 0] i ≤
        controller_p.rotor_rate_max) := by
  have hb : controller_p.rotor_rate_min ≤ controller_p.rotor_rate_max := by
    show (180 : ℝ) ≤ 600
    norm_num
  exact ⟨hb, (rotor_rate_recovery_safe p controller_p ![0, 0, 0, 0] hb).2.2⟩

/-- C5: when the reference position and velocity equal the actual state's,
the commanded acceleration is zero and the thrust command is exactly
`mass * g`. -/
theorem hover_equilibrium (pr : Params) (cp : ControllerParams) (trajectory : TrajectoryState)
    (state : QuadrotorState) (hp : trajectory.position = state.position)
    (hv : trajectory.velocity = state.velocity) :
    Controller.commanded_acceleration cp trajectory state = 0 ∧
    Controller.u_1 pr cp trajectory state = pr.mass * pr.g := by
  have hacc : Controller.commanded_acceleration cp trajectory state = 0 := by
    unfold Controller.commanded_acceleration
    rw [hp, hv, sub_self, sub_self, Matrix.mulVec_zero, Matrix.mulVec_zero, add_zero]
  refine ⟨hacc, ?_⟩
  unfold Controller.u_1
  rw [hacc]
  simp

/-- C5 witness: a concrete hover state at altitude 1 with zero velocity. -/
theorem hover_equilibrium_witness :
    Controller.u_1 p controller_p
      { time := 0, position := ![0, 0, 1], velocity := ![0, 0, 0] }
      { position := ![0, 0, 1], velocity := ![0, 0, 0],
        orientation := ⟨0, 0, 0, 1⟩, angular_velocity := ![0, 0, 0] } =
    p.mass * p.g := by
  exact (hover_equilibrium p controller_p _ _ rfl rfl).2

/-- C8 counterexample: it is false that every constructible configuration
satisfies the validity conditions (positive mass, nonsingular inertia,
nonsingular mixing matrix) — nothing is rejected at construction time. -/
theorem params_validation_refuted :
    ¬ ∀ pr : Params, 0 < pr.mass ∧ pr.inertia.det ≠ 0 ∧
      (FullQuadrotorDynamics.mixing_matrix pr).det ≠ 0 := by
  intro h
  have hmass := (h invalidParams).1
  have hm : invalidParams.mass = -1 := rfl
  rw [hm] at hmass
  linarith

/-- C8 amended: construction performs no validation — values with
non-positive mass or a singular mixing matrix (zero arm length) are
accepted as constructed — while the default configuration is itself valid:
positive mass, nonsingular inertia tensor, nonsingular mixing matrix. -/
theorem construction_accepts_any_configuration :
    invalidParams.mass = -1 ∧
    (FullQuadrotorDynamics.mixing_matrix zeroArmParams).det = 0 ∧
    0 < p.mass ∧ p.inertia.det ≠ 0 ∧
    (FullQuadrotorDynamics.mixing_matrix p).det ≠ 0 := by
  refine ⟨rfl, ?_, ?_, ?_, ?_⟩
  · rw [mixing_matrix_det]
    have ha : zeroArmParams.arm_length = 0 := rfl
    rw [ha]
    ring
  · show (0 : ℝ) < 1.352
    norm_num
  · simp only [p]
    rw [Matrix.det_fin_three]
    norm_num
  · rw [mixing_matrix_det]
    have hk : 0 < p.k_thrust / p.k_torque := div_pos p_k_thrust_pos p_k_torque_pos
    have hL : (0 : ℝ) < p.arm_length := by
      show (0 : ℝ) < 0.3814 / 2.0
      norm_num
    have : 0 < 8 * p.arm_length ^ 2 * (p.k_thrust / p.k_torque) := by positivity
    exact neg_ne_zero.mpr (ne_of_gt this)

/-- C9: the per-tick pipeline is deterministic: from identical initial
state, parameters, integrator and dt, a tick and the whole simulation
history coincide between two runs. -/
theorem pipeline_deterministic (pr pr' : Params) (cp cp' : ControllerParams)
    (integ integ' : Integrator) (dt dt' t t' : ℝ) (n : ℕ)
    (s s' : QuadrotorState) (hpr : pr = pr') (hcp : cp = cp')
    (hi : integ = integ') (hdt : dt = dt') (ht : t = t') (hs : s = s') :
    tick pr cp integ dt t s = tick pr' cp' integ' dt' t' s' ∧
    simulate_history pr cp integ dt n t s =
      simulate_history pr' cp' integ' dt' n t' s' := by
  subst hpr hcp hi hdt ht hs
  exact ⟨rfl, rfl⟩

/-- C9 witness: a concrete 3-tick run reproduces itself. -/
theorem pipeline_deterministic_witness :
    simulate_history p controller_p (fun _ _ s => s) 0.01 3 0 restState =
      simulate_history p controller_p (fun _ _ s => s) 0.01 3 0 restState :=
  (pipeline_deterministic p p controller_p controller_p (fun _ _ s => s)
    (fun _ _ s => s) 0.01 0.01 0 0 3 restState restState
    rfl rfl rfl rfl rfl rfl).2

/-- C10: the planar step depends only on the first two rotor rates: two
commands agreeing on rates 0 and 1 produce the same new state, whatever
their rates 2 and 3 are. -/
theorem planar_step_ignores_rear_rotors (pr : PlanarParams) (integ : Integrator)
    (dt t : ℝ) (state : QuadrotorState) (c c' : QuadrotorCommands)
    (h0 : c.rotor_rates 0 = c'.rotor_rates 0)
    (h1 : c.rotor_rates 1 = c'.rotor_rates 1) :
    PlanarQuadrotorDynamics.step pr integ dt state t c =
      PlanarQuadrotorDynamics.step pr integ dt state t c' := by
  simp only [PlanarQuadrotorDynamics.step, h0, h1]

/-- C10 witness: commands `(300,300,7,8)` and `(300,300,9,10)` under a
concrete integrator give the same planar step. -/
theorem planar_step_ignores_rear_rotors_witness :
    PlanarQuadrotorDynamics.step planar_p (fun _ _ s => s) 0.01 restState 0
        ⟨![300, 300, 7, 8]⟩ =
      PlanarQuadrotorDynamics.step planar_p (fun _ _ s => s) 0.01 restState 0
        ⟨![300, 300, 9, 10]⟩ :=
  planar_step_ignores_rear_rotors planar_p (fun _ _ s => s) 0.01 0 restState
    ⟨![300, 300, 7, 8]⟩ ⟨![300, 300, 9, 10]⟩ rfl rfl
